import Mathlib

/-!
Verification development for the portfolio chatbot backend.

The definitions below are a shallow embedding of the TypeScript sources:
  - src/services/contactService.ts (ContactService and the improved
    BotpressService: cache, backoff, response waiter),
  - src/controllers/chatController.ts (handleChatMessage),
  - src/controllers/contactController.ts (ContactController.sendMessage),
  - src/types/botpress.ts (data model).

Modelling conventions:
  - JavaScript numbers used for arithmetic (backoff, jitter) are modelled
    exactly over the rationals; timestamps (Date.now, createdAt after the
    new Date conversion) are modelled as integers (epoch milliseconds).
  - The JavaScript Map backing the conversation cache is modelled as an
    association list with unique-key update/delete/lookup semantics.
  - HTTP calls are modelled as oracle parameters of type Except String,
    an error value standing for a rejected promise (axios throw); the i-th
    poll of the response waiter is the value of an oracle at index i.
  - Express handlers are modelled as pure functions from a request and an
    oracle environment to the response they write plus the ordered trace
    of upstream calls they issue.
-/

namespace PortfolioChatbot

/-! ### Data model (src/types/botpress.ts) -/

/-- Payload of a chat message: interface MessagePayload. -/
structure MessagePayload where
  type : String
  text : String
deriving DecidableEq

/-- interface BotpressMessage; createdAt is an ISO string in the source,
compared only through new Date conversion, so it is modelled as an
integer timestamp. -/
structure BotpressMessage where
  id : String
  createdAt : Int
  conversationId : String
  userId : String
  payload : MessagePayload
deriving DecidableEq

/-- interface BotpressMessageResponse. -/
structure BotpressMessageResponse where
  message : BotpressMessage
deriving DecidableEq

/-- The two meta fields the system ever reads or writes, projected out of
the untyped meta record of MessagesResponse. -/
structure MessagesMeta where
  pageSize : Option Nat
  nextToken : Option String
deriving DecidableEq

/-- interface MessagesResponse. -/
structure MessagesResponse where
  messages : List BotpressMessage
  meta : MessagesMeta
deriving DecidableEq

/-- interface BotpressUser (the two fields the controller reads). -/
structure BotpressUser where
  id : String
  key : String
deriving DecidableEq

/-! ### BotpressService retry policy (contactService.ts, improved service) -/

/-- MAX_RETRIES = 15. -/
def MAX_RETRIES : Nat := 15

/-- MAX_NO_CHANGE_ATTEMPTS = 3 (local constant of waitForBotResponse). -/
def MAX_NO_CHANGE_ATTEMPTS : Nat := 3

/-- INITIAL_WAIT = 500 (milliseconds), as an exact rational. -/
def INITIAL_WAIT : ℚ := 500

/-- MAX_WAIT = 3000 (milliseconds), as an exact rational. -/
def MAX_WAIT : ℚ := 3000

/-- BotpressService.calculateBackoff.  The call Math.random() is made a
parameter random, and the double arithmetic is modelled exactly over ℚ:
  exponential = min(INITIAL_WAIT * 1.5 ^ attempt, MAX_WAIT)
  jitter = random * 0.1 * exponential. -/
def calculateBackoff (attempt : Nat) (random : ℚ) : ℚ :=
  let exponential := min (INITIAL_WAIT * (3 / 2 : ℚ) ^ attempt) MAX_WAIT
  let jitter := random * (1 / 10) * exponential
  exponential + jitter

/-! ### Response waiter (BotpressService.waitForBotResponse) -/

/-- The filter predicate of waitForBotResponse: a candidate bot message is
any message other than the sent one whose createdAt is strictly later than
the createdAt of the sent message. -/
def isAfter (lastMessageId : String) (lastMessage msg : BotpressMessage) : Bool :=
  msg.id != lastMessageId && decide (lastMessage.createdAt < msg.createdAt)

/-- The list botMessages computed on one poll of waitForBotResponse. -/
def botMessagesAfter (messages : List BotpressMessage) (lastMessageId : String)
    (lastMessage : BotpressMessage) : List BotpressMessage :=
  messages.filter (isAfter lastMessageId lastMessage)

/-- The four ways the waitForBotResponse loop can end, labelling its exit
points: returning botMessages[0], breaking on the no-change counter,
exhausting MAX_RETRIES, or rethrowing an upstream failure. -/
inductive WaitOutcome where
  | reply (m : BotpressMessage)
  | noChangeStop
  | exhausted
  | failed (e : String)
deriving DecidableEq

/-- Instrumented result of a waitForBotResponse run: the outcome, the
number of attempts in which the sent message was located, and the number
of listMessages polls performed. -/
structure WaitStats where
  outcome : WaitOutcome
  foundCount : Nat
  pollCount : Nat
deriving DecidableEq

/-- The loop body of waitForBotResponse.  polls i is the result of the
listMessages call of iteration i (an Except.error models a thrown axios
error).  Arguments after lastMessageId: remaining fuel (MAX_RETRIES - i),
the loop index i, lastKnownMessageCount, noChangeCount, and the
instrumentation counter of attempts in which the sent message was found. -/
def waitGo (polls : Nat → Except String (List BotpressMessage)) (lastMessageId : String) :
    Nat → Nat → Nat → Nat → Nat → WaitStats
  | 0, i, _, _, found => ⟨WaitOutcome.exhausted, found, i⟩
  | fuel + 1, i, lastKnownMessageCount, noChangeCount, found =>
    match polls i with
    | Except.error e => ⟨WaitOutcome.failed e, found, i + 1⟩
    | Except.ok messages =>
      match messages.find? (fun m => m.id == lastMessageId) with
      | none =>
        -- sent message not indexed yet: continue
        waitGo polls lastMessageId fuel (i + 1) lastKnownMessageCount noChangeCount found
      | some lastMessage =>
        if messages.length = lastKnownMessageCount ∧
            MAX_NO_CHANGE_ATTEMPTS ≤ noChangeCount + 1 then
          -- noChangeCount++ reached the threshold: break, then return null
          ⟨WaitOutcome.noChangeStop, found + 1, i + 1⟩
        else
          let noChangeCount2 :=
            if messages.length = lastKnownMessageCount then noChangeCount + 1 else 0
          let lastKnownMessageCount2 :=
            if messages.length = lastKnownMessageCount then lastKnownMessageCount
            else messages.length
          match botMessagesAfter messages lastMessageId lastMessage with
          | b :: _ => ⟨WaitOutcome.reply b, found + 1, i + 1⟩
          | [] =>
            waitGo polls lastMessageId fuel (i + 1) lastKnownMessageCount2 noChangeCount2
              (found + 1)

/-- Unfolding waitGo on an iteration whose poll fails. -/
lemma waitGo_err {polls : Nat → Except String (List BotpressMessage)} {lastMessageId : String}
    {fuel i lk nc f : Nat} {e : String} (hp : polls i = Except.error e) :
    waitGo polls lastMessageId (fuel + 1) i lk nc f = ⟨WaitOutcome.failed e, f, i + 1⟩ := by
  simp only [waitGo, hp]

/-- Unfolding waitGo on an iteration that does not find the sent message. -/
lemma waitGo_notfound {polls : Nat → Except String (List BotpressMessage)}
    {lastMessageId : String} {fuel i lk nc f : Nat} {messages : List BotpressMessage}
    (hp : polls i = Except.ok messages)
    (hf : messages.find? (fun m => m.id == lastMessageId) = none) :
    waitGo polls lastMessageId (fuel + 1) i lk nc f
      = waitGo polls lastMessageId fuel (i + 1) lk nc f := by
  simp only [waitGo, hp, hf]

/-- Unfolding waitGo on an iteration that trips the no-change break. -/
lemma waitGo_stop {polls : Nat → Except String (List BotpressMessage)}
    {lastMessageId : String} {fuel i lk nc f : Nat} {messages : List BotpressMessage}
    {lastMessage : BotpressMessage}
    (hp : polls i = Except.ok messages)
    (hf : messages.find? (fun m => m.id == lastMessageId) = some lastMessage)
    (hcond : messages.length = lk ∧ MAX_NO_CHANGE_ATTEMPTS ≤ nc + 1) :
    waitGo polls lastMessageId (fuel + 1) i lk nc f
      = ⟨WaitOutcome.noChangeStop, f + 1, i + 1⟩ := by
  simp only [waitGo, hp, hf, if_pos hcond]

/-- Unfolding waitGo on an iteration that finds a qualifying bot message. -/
lemma waitGo_reply {polls : Nat → Except String (List BotpressMessage)}
    {lastMessageId : String} {fuel i lk nc f : Nat} {messages : List BotpressMessage}
    {lastMessage b : BotpressMessage} {rest : List BotpressMessage}
    (hp : polls i = Except.ok messages)
    (hf : messages.find? (fun m => m.id == lastMessageId) = some lastMessage)
    (hcond : ¬(messages.length = lk ∧ MAX_NO_CHANGE_ATTEMPTS ≤ nc + 1))
    (hbm : botMessagesAfter messages lastMessageId lastMessage = b :: rest) :
    waitGo polls lastMessageId (fuel + 1) i lk nc f
      = ⟨WaitOutcome.reply b, f + 1, i + 1⟩ := by
  simp only [waitGo, hp, hf, if_neg hcond, hbm]

/-- Unfolding waitGo on an iteration that finds the sent message but no
qualifying bot message and continues. -/
lemma waitGo_continue {polls : Nat → Except String (List BotpressMessage)}
    {lastMessageId : String} {fuel i lk nc f : Nat} {messages : List BotpressMessage}
    {lastMessage : BotpressMessage}
    (hp : polls i = Except.ok messages)
    (hf : messages.find? (fun m => m.id == lastMessageId) = some lastMessage)
    (hcond : ¬(messages.length = lk ∧ MAX_NO_CHANGE_ATTEMPTS ≤ nc + 1))
    (hbm : botMessagesAfter messages lastMessageId lastMessage = []) :
    waitGo polls lastMessageId (fuel + 1) i lk nc f
      = waitGo polls lastMessageId fuel (i + 1)
          (if messages.length = lk then lk else messages.length)
          (if messages.length = lk then nc + 1 else 0) (f + 1) := by
  simp only [waitGo, hp, hf, if_neg hcond, hbm]

/-- A full run of the waitForBotResponse loop from its initial state
(lastKnownMessageCount = 0, noChangeCount = 0). -/
def waitRun (polls : Nat → Except String (List BotpressMessage)) (lastMessageId : String) :
    WaitStats :=
  waitGo polls lastMessageId MAX_RETRIES 0 0 0 0

/-- BotpressService.waitForBotResponse: reply found is returned, loop
exhaustion and the no-change break both return null (modelled none), and
an upstream failure is rethrown (modelled Except.error). -/
def waitForBotResponse (polls : Nat → Except String (List BotpressMessage))
    (lastMessageId : String) : Except String (Option BotpressMessage) :=
  match (waitRun polls lastMessageId).outcome with
  | WaitOutcome.reply m => Except.ok (some m)
  | WaitOutcome.noChangeStop => Except.ok none
  | WaitOutcome.exhausted => Except.ok none
  | WaitOutcome.failed e => Except.error e

/-- Helper: the loop performs at most one poll per unit of fuel, so the
number of polls of a partial run started at index i with the given fuel
never exceeds i + fuel. -/
lemma waitGo_pollCount_le (polls : Nat → Except String (List BotpressMessage))
    (lastMessageId : String) :
    ∀ fuel i lk nc f, (waitGo polls lastMessageId fuel i lk nc f).pollCount ≤ i + fuel := by
  intro fuel
  induction fuel with
  | zero => intro i lk nc f; simp [waitGo]
  | succ fuel ih =>
    intro i lk nc f
    simp only [waitGo]
    cases hp : polls i with
    | error e => simp only []; omega
    | ok messages =>
      simp only []
      cases hf : messages.find? (fun m => m.id == lastMessageId) with
      | none =>
        simp only []
        have := ih (i + 1) lk nc f
        omega
      | some lastMessage =>
        simp only []
        split
        · simp only []; omega
        · cases hb : botMessagesAfter messages lastMessageId lastMessage with
          | nil =>
            simp only []
            have := ih (i + 1)
              (if messages.length = lk then lk else messages.length)
              (if messages.length = lk then nc + 1 else 0) (f + 1)
            omega
          | cons b rest => simp only []; omega

/-- Claim C1: for every attempt index i and every jitter sample r in
[0, 1), the computed backoff equals min(500 * 1.5 ^ i, 3000) plus
r * 0.1 times that value, hence lies between min(500 * 1.5 ^ i, 3000)
and min(500 * 1.5 ^ i * 1.1, 3300); and every run of the response waiter
performs at most MAX_RETRIES = 15 polling attempts. -/
theorem backoff_bounds_and_attempt_limit :
    (∀ (i : Nat) (r : ℚ), 0 ≤ r → r < 1 →
      calculateBackoff i r
          = min (500 * (3 / 2 : ℚ) ^ i) 3000 + r * (1 / 10) * min (500 * (3 / 2 : ℚ) ^ i) 3000
        ∧ min (500 * (3 / 2 : ℚ) ^ i) 3000 ≤ calculateBackoff i r
        ∧ calculateBackoff i r ≤ min (500 * (3 / 2 : ℚ) ^ i * (11 / 10)) 3300)
    ∧ ∀ (polls : Nat → Except String (List BotpressMessage)) (lastMessageId : String),
        (waitRun polls lastMessageId).pollCount ≤ MAX_RETRIES := by
  constructor
  · intro i r hr0 hr1
    have hpow : (0 : ℚ) < (3 / 2 : ℚ) ^ i := by positivity
    have hexp : (0 : ℚ) < min (500 * (3 / 2 : ℚ) ^ i) 3000 := by
      apply lt_min
      · nlinarith
      · norm_num
    have hdef : calculateBackoff i r
        = min (500 * (3 / 2 : ℚ) ^ i) 3000 + r * (1 / 10) * min (500 * (3 / 2 : ℚ) ^ i) 3000 := by
      simp [calculateBackoff, INITIAL_WAIT, MAX_WAIT]
    refine ⟨hdef, ?_, ?_⟩
    · rw [hdef]
      nlinarith [mul_nonneg (mul_nonneg hr0 (by norm_num : (0 : ℚ) ≤ 1 / 10)) hexp.le]
    · rw [hdef]
      apply le_min
      · have h1 : min (500 * (3 / 2 : ℚ) ^ i) 3000 ≤ 500 * (3 / 2 : ℚ) ^ i := min_le_left _ _
        nlinarith
      · have h2 : min (500 * (3 / 2 : ℚ) ^ i) 3000 ≤ 3000 := min_le_right _ _
        nlinarith
  · intro polls lastMessageId
    have := waitGo_pollCount_le polls lastMessageId MAX_RETRIES 0 0 0 0
    simpa [waitRun] using this

/-- Witness for C1 at attempt 3 with jitter sample 1/2. -/
theorem backoff_bounds_and_attempt_limit_witness :
    min (500 * (3 / 2 : ℚ) ^ 3) 3000 ≤ calculateBackoff 3 (1 / 2)
      ∧ calculateBackoff 3 (1 / 2) ≤ min (500 * (3 / 2 : ℚ) ^ 3 * (11 / 10)) 3300 :=
  ⟨(backoff_bounds_and_attempt_limit.1 3 (1 / 2) (by norm_num) (by norm_num)).2.1,
   (backoff_bounds_and_attempt_limit.1 3 (1 / 2) (by norm_num) (by norm_num)).2.2⟩

/-- Helper: a message found by find? is a member of the list. -/
lemma length_ne_zero_of_find? {msgs : List BotpressMessage} {p : BotpressMessage → Bool}
    {sent : BotpressMessage} (hfind : msgs.find? p = some sent) : msgs.length ≠ 0 := by
  have hmem : sent ∈ msgs := List.mem_of_find?_eq_some hfind
  have : msgs ≠ [] := List.ne_nil_of_mem hmem
  simpa [List.length_eq_zero] using this

/-- Helper: on a first successful poll whose list contains the sent
message, a nonempty qualifier list makes the run return its head. -/
lemma waitRun_first_poll_reply (msgs : List BotpressMessage) (sentId : String)
    (sent b : BotpressMessage) (rest : List BotpressMessage)
    (hfind : msgs.find? (fun m => m.id == sentId) = some sent)
    (hb : botMessagesAfter msgs sentId sent = b :: rest) :
    waitRun (fun _ => Except.ok msgs) sentId = ⟨WaitOutcome.reply b, 1, 1⟩ := by
  have hlen : msgs.length ≠ 0 := length_ne_zero_of_find? hfind
  have h15 : MAX_RETRIES = 14 + 1 := rfl
  rw [waitRun, h15, waitGo_reply rfl hfind (fun hc => hlen hc.1) hb]

/-- Claim C2: over a message list sorted by createdAt ascending that
contains the sent message, when qualifying messages (other id, strictly
later createdAt) exist, the waiter returns a qualifying message whose
createdAt is minimal among qualifiers: first-after-send, not last. -/
theorem waiter_returns_earliest_qualifier
    (msgs : List BotpressMessage) (sentId : String) (sent : BotpressMessage)
    (hsorted : msgs.Pairwise (fun a c => a.createdAt ≤ c.createdAt))
    (hfind : msgs.find? (fun m => m.id == sentId) = some sent)
    (hq : botMessagesAfter msgs sentId sent ≠ []) :
    ∃ m, waitForBotResponse (fun _ => Except.ok msgs) sentId = Except.ok (some m)
      ∧ m ∈ botMessagesAfter msgs sentId sent
      ∧ ∀ q ∈ botMessagesAfter msgs sentId sent, m.createdAt ≤ q.createdAt := by
  obtain ⟨b, rest, hb⟩ := List.exists_cons_of_ne_nil hq
  have hrun := waitRun_first_poll_reply msgs sentId sent b rest hfind hb
  refine ⟨b, ?_, ?_, ?_⟩
  · rw [waitForBotResponse, hrun]
  · rw [hb]; exact List.mem_cons_self _ _
  · have hpair : (botMessagesAfter msgs sentId sent).Pairwise
        (fun a c => a.createdAt ≤ c.createdAt) :=
      hsorted.filter _
    rw [hb] at hpair
    intro q hqmem
    rw [hb] at hqmem
    rcases List.mem_cons.mp hqmem with h | h
    · rw [h]
    · exact (List.pairwise_cons.mp hpair).1 q h

/-- Demo messages used by concrete witnesses: a sent user message and two
later bot replies in the same conversation. -/
def msgA : BotpressMessage := ⟨"m0", 10, "c1", "u1", ⟨"text", "hi"⟩⟩

def msgB : BotpressMessage := ⟨"m1", 20, "c1", "u2", ⟨"text", "first reply"⟩⟩

def msgC : BotpressMessage := ⟨"m2", 30, "c1", "u2", ⟨"text", "second reply"⟩⟩

/-- Witness for C2 on a three-message conversation with two qualifying
bot replies. -/
theorem waiter_returns_earliest_qualifier_witness :
    ∃ m, waitForBotResponse (fun _ => Except.ok [msgA, msgB, msgC]) "m0" = Except.ok (some m)
      ∧ m ∈ botMessagesAfter [msgA, msgB, msgC] "m0" msgA
      ∧ ∀ q ∈ botMessagesAfter [msgA, msgB, msgC] "m0" msgA, m.createdAt ≤ q.createdAt :=
  waiter_returns_earliest_qualifier [msgA, msgB, msgC] "m0" msgA
    (by decide) (by decide) (by decide)

/-- Helper: a failed outcome can only come from a failed poll at some
index reached by the loop. -/
lemma waitGo_failed_imp (polls : Nat → Except String (List BotpressMessage))
    (lastMessageId : String) :
    ∀ fuel i lk nc f e, (waitGo polls lastMessageId fuel i lk nc f).outcome
        = WaitOutcome.failed e →
      ∃ j, i ≤ j ∧ j < i + fuel ∧ polls j = Except.error e := by
  intro fuel
  induction fuel with
  | zero => intro i lk nc f e h; simp [waitGo] at h
  | succ fuel ih =>
    intro i lk nc f e h
    cases hp : polls i with
    | error e2 =>
      rw [waitGo_err hp] at h
      have he : e2 = e := by simpa using h
      exact ⟨i, le_refl i, by omega, by rw [hp, he]⟩
    | ok messages =>
      cases hf : messages.find? (fun m => m.id == lastMessageId) with
      | none =>
        rw [waitGo_notfound hp hf] at h
        obtain ⟨j, hj1, hj2, hj3⟩ := ih (i + 1) lk nc f e h
        exact ⟨j, by omega, by omega, hj3⟩
      | some lastMessage =>
        by_cases hcond : messages.length = lk ∧ MAX_NO_CHANGE_ATTEMPTS ≤ nc + 1
        · rw [waitGo_stop hp hf hcond] at h
          simp at h
        · cases hbm : botMessagesAfter messages lastMessageId lastMessage with
          | nil =>
            rw [waitGo_continue hp hf hcond hbm] at h
            obtain ⟨j, hj1, hj2, hj3⟩ := ih (i + 1) _ _ (f + 1) e h
            exact ⟨j, by omega, by omega, hj3⟩
          | cons b rest =>
            rw [waitGo_reply hp hf hcond hbm] at h
            simp at h

/-- Helper: once the sent message is found and no qualifier ever appears,
constant polls stall the message count and trip the no-change break after
3 - nc further polls. -/
lemma waitGo_const_stalls (msgs : List BotpressMessage) (lastMessageId : String)
    (sent : BotpressMessage)
    (hfind : msgs.find? (fun m => m.id == lastMessageId) = some sent)
    (hq : botMessagesAfter msgs lastMessageId sent = []) :
    ∀ fuel i nc f, nc < 3 → 3 - nc ≤ fuel →
      waitGo (fun _ => Except.ok msgs) lastMessageId fuel i msgs.length nc f
        = ⟨WaitOutcome.noChangeStop, f + (3 - nc), i + (3 - nc)⟩ := by
  have hM : MAX_NO_CHANGE_ATTEMPTS = 3 := rfl
  intro fuel
  induction fuel with
  | zero => intro i nc f h3 hle; omega
  | succ fuel ih =>
    intro i nc f h3 hle
    by_cases hnc : MAX_NO_CHANGE_ATTEMPTS ≤ nc + 1
    · rw [waitGo_stop rfl hfind ⟨rfl, hnc⟩]
      rw [hM] at hnc
      have h1 : 3 - nc = 1 := by omega
      rw [h1]
    · rw [waitGo_continue rfl hfind (fun hc => hnc hc.2) hq]
      rw [hM] at hnc
      have hif1 : (if msgs.length = msgs.length then msgs.length else msgs.length)
          = msgs.length := if_pos rfl
      have hif2 : (if msgs.length = msgs.length then nc + 1 else 0) = nc + 1 := if_pos rfl
      rw [hif1, hif2, ih (i + 1) (nc + 1) (f + 1) (by omega) (by omega)]
      have h2 : f + 1 + (3 - (nc + 1)) = f + (3 - nc) := by omega
      have h3b : i + 1 + (3 - (nc + 1)) = i + (3 - nc) := by omega
      rw [h2, h3b]

/-- Claim C3: the waiter returns null as a normal result when retries
exhaust or the no-change threshold trips without a qualifying message
(an all-successful poll sequence can never produce an error), while an
upstream failure during polling propagates as an error that originated
from some poll; concretely, constant polls with no qualifier end with
null after exactly 4 polls, before the 15 attempts run out. -/
theorem waiter_null_vs_error :
    (∀ (polls : Nat → Except String (List BotpressMessage)) (lastMessageId : String),
        (∀ i, i < MAX_RETRIES → ∃ l, polls i = Except.ok l) →
        ∃ v, waitForBotResponse polls lastMessageId = Except.ok v)
    ∧ (∀ (polls : Nat → Except String (List BotpressMessage)) (lastMessageId : String)
          (e : String), waitForBotResponse polls lastMessageId = Except.error e →
        ∃ i, i < MAX_RETRIES ∧ polls i = Except.error e)
    ∧ (∀ (msgs : List BotpressMessage) (lastMessageId : String) (sent : BotpressMessage),
        msgs.find? (fun m => m.id == lastMessageId) = some sent →
        botMessagesAfter msgs lastMessageId sent = [] →
        waitForBotResponse (fun _ => Except.ok msgs) lastMessageId = Except.ok none
          ∧ (waitRun (fun _ => Except.ok msgs) lastMessageId).pollCount = 4) := by
  have hfail : ∀ (polls : Nat → Except String (List BotpressMessage)) (lastMessageId : String)
      (e : String), waitForBotResponse polls lastMessageId = Except.error e →
      ∃ i, i < MAX_RETRIES ∧ polls i = Except.error e := by
    intro polls lastMessageId e h
    rw [waitForBotResponse] at h
    cases hout : (waitRun polls lastMessageId).outcome with
    | reply m => rw [hout] at h; cases h
    | noChangeStop => rw [hout] at h; cases h
    | exhausted => rw [hout] at h; cases h
    | failed e2 =>
      rw [hout] at h
      cases h
      obtain ⟨j, hj1, hj2, hj3⟩ := waitGo_failed_imp polls lastMessageId MAX_RETRIES 0 0 0 0 e hout
      exact ⟨j, by omega, hj3⟩
  refine ⟨?_, hfail, ?_⟩
  · intro polls lastMessageId hok
    cases hres : waitForBotResponse polls lastMessageId with
    | ok v => exact ⟨v, rfl⟩
    | error e =>
      obtain ⟨i, hi, hpi⟩ := hfail polls lastMessageId e hres
      obtain ⟨l, hl⟩ := hok i hi
      rw [hl] at hpi
      cases hpi
  · intro msgs lastMessageId sent hfind hq
    have hlen : msgs.length ≠ 0 := length_ne_zero_of_find? hfind
    have hrun : waitRun (fun _ => Except.ok msgs) lastMessageId
        = ⟨WaitOutcome.noChangeStop, 4, 4⟩ := by
      have h15 : MAX_RETRIES = 14 + 1 := rfl
      rw [waitRun, h15, waitGo_continue rfl hfind (fun hc => hlen hc.1) hq]
      simp only [if_neg hlen]
      rw [waitGo_const_stalls msgs lastMessageId sent hfind hq 14 1 0 1 (by omega) (by omega)]
    constructor
    · rw [waitForBotResponse, hrun]
    · rw [hrun]

/-- Witness for C3: all-ok constant polls give a null result; a failing
first poll propagates its error; a stalled conversation ends after 4
polls. -/
theorem waiter_null_vs_error_witness :
    (∃ v, waitForBotResponse (fun _ => Except.ok [msgA]) "m0" = Except.ok v)
      ∧ (∃ i, i < MAX_RETRIES
          ∧ (fun (_ : Nat) => (Except.error "boom" : Except String (List BotpressMessage))) i
              = Except.error "boom")
      ∧ waitForBotResponse (fun _ => Except.ok [msgA]) "m0" = Except.ok none
      ∧ (waitRun (fun _ => Except.ok [msgA]) "m0").pollCount = 4 :=
  ⟨waiter_null_vs_error.1 (fun _ => Except.ok [msgA]) "m0" (fun i _ => ⟨[msgA], rfl⟩),
   waiter_null_vs_error.2.1 (fun _ => Except.error "boom") "m0" "boom" rfl,
   (waiter_null_vs_error.2.2 [msgA] "m0" msgA (by decide) (by decide)).1,
   (waiter_null_vs_error.2.2 [msgA] "m0" msgA (by decide) (by decide)).2⟩

/-- Helper invariant for C9: whenever lastKnownMessageCount is nonzero at
least noChangeCount + 1 earlier attempts found the sent message, so a
no-change stop carries at least four found attempts. -/
lemma waitGo_noChangeStop_found (polls : Nat → Except String (List BotpressMessage))
    (lastMessageId : String) :
    ∀ fuel i lk nc f, (lk ≠ 0 → nc + 1 ≤ f) →
      (waitGo polls lastMessageId fuel i lk nc f).outcome = WaitOutcome.noChangeStop →
      4 ≤ (waitGo polls lastMessageId fuel i lk nc f).foundCount := by
  intro fuel
  induction fuel with
  | zero => intro i lk nc f hinv h; simp [waitGo] at h
  | succ fuel ih =>
    intro i lk nc f hinv h
    cases hp : polls i with
    | error e => rw [waitGo_err hp] at h; simp at h
    | ok messages =>
      cases hf : messages.find? (fun m => m.id == lastMessageId) with
      | none =>
        rw [waitGo_notfound hp hf] at h ⊢
        exact ih (i + 1) lk nc f hinv h
      | some lastMessage =>
        by_cases hcond : messages.length = lk ∧ MAX_NO_CHANGE_ATTEMPTS ≤ nc + 1
        · rw [waitGo_stop hp hf hcond]
          have hlenm : messages.length ≠ 0 := length_ne_zero_of_find? hf
          have hlk : lk ≠ 0 := by rw [← hcond.1]; exact hlenm
          have h1 : nc + 1 ≤ f := hinv hlk
          have h2 : (3 : Nat) ≤ nc + 1 := hcond.2
          show 4 ≤ f + 1
          omega
        · cases hbm : botMessagesAfter messages lastMessageId lastMessage with
          | nil =>
            rw [waitGo_continue hp hf hcond hbm] at h ⊢
            have hinv2 : (if messages.length = lk then lk else messages.length) ≠ 0 →
                (if messages.length = lk then nc + 1 else 0) + 1 ≤ f + 1 := by
              intro hne
              by_cases hsame : messages.length = lk
              · simp only [if_pos hsame] at hne ⊢
                have h1 : nc + 1 ≤ f := hinv hne
                omega
              · simp only [if_neg hsame]
                omega
            exact ih (i + 1) _ _ (f + 1) hinv2 h
          | cons b rest =>
            rw [waitGo_reply hp hf hcond hbm] at h
            simp at h

/-- Claim C9: a null return through the no-change break requires at least
four attempts in which the sent message was found, since the baseline
count 0 can never equal the length of a list containing the sent message,
so the first found attempt always registers growth. -/
theorem nochange_stop_requires_four_found
    (polls : Nat → Except String (List BotpressMessage)) (lastMessageId : String)
    (h : (waitRun polls lastMessageId).outcome = WaitOutcome.noChangeStop) :
    4 ≤ (waitRun polls lastMessageId).foundCount :=
  waitGo_noChangeStop_found polls lastMessageId MAX_RETRIES 0 0 0 0
    (fun hne => absurd rfl hne) h

/-- Witness for C9 on a conversation that stalls after the send. -/
theorem nochange_stop_requires_four_found_witness :
    4 ≤ (waitRun (fun _ => Except.ok [msgA]) "m0").foundCount :=
  nochange_stop_requires_four_found (fun _ => Except.ok [msgA]) "m0" (by decide)

/-! ### Conversation cache (BotpressService, contactService.ts) -/

/-- CACHE_TTL = 5 * 60 * 1000 milliseconds. -/
def CACHE_TTL : Int := 5 * 60 * 1000

/-- interface ConversationCache (one entry of the Map). -/
structure CacheEntry where
  messages : List BotpressMessage
  lastUpdated : Int
  ttl : Int
deriving DecidableEq

/-- The conversationCache Map, modelled as an association list with
unique-key semantics. -/
abbrev Cache := List (String × CacheEntry)

/-- Map.get: first (unique) binding of the key. -/
def mapGet : Cache → String → Option CacheEntry
  | [], _ => none
  | (k, v) :: rest, key => if k = key then some v else mapGet rest key

/-- Map.delete: remove the binding of the key. -/
def mapDelete (c : Cache) (key : String) : Cache :=
  c.filter (fun p => p.1 != key)

/-- Map.set: replace the binding of the key in place, or append it. -/
def mapSet : Cache → String → CacheEntry → Cache
  | [], key, v => [(key, v)]
  | (k, w) :: rest, key, v =>
    if k = key then (key, v) :: rest else (k, w) :: mapSet rest key v

/-- BotpressService.clearExpiredCache: delete every entry whose age
strictly exceeds its ttl (keep those with now - lastUpdated ≤ ttl). -/
def clearExpiredCache (c : Cache) (now : Int) : Cache :=
  c.filter (fun p => decide (now - p.2.lastUpdated ≤ p.2.ttl))

/-- BotpressService.getCachedMessages: lazily evict expired entries, then
return the entry of the conversation if it is present and still fresh
(now - lastUpdated < ttl).  Returns the mutated map and the result; the
two Date.now() reads of the source are modelled as the same instant. -/
def getCachedMessages (c : Cache) (conversationId : String) (now : Int) :
    Cache × Option (List BotpressMessage) :=
  let c2 := clearExpiredCache c now
  match mapGet c2 conversationId with
  | some cache =>
    if now - cache.lastUpdated < cache.ttl then (c2, some cache.messages) else (c2, none)
  | none => (c2, none)

/-- BotpressService.updateCache: unconditional overwrite with a fresh
timestamp and the fixed ttl. -/
def updateCache (c : Cache) (conversationId : String)
    (messages : List BotpressMessage) (now : Int) : Cache :=
  mapSet c conversationId ⟨messages, now, CACHE_TTL⟩

/-- BotpressService.sendMessage, restricted to its cache effect: on
upstream success the conversation entry is deleted and the upstream
envelope returned; an upstream failure is rethrown and leaves the cache
untouched. -/
def sendMessage (c : Cache) (conversationId : String)
    (upstream : Except String BotpressMessageResponse) :
    Except String (BotpressMessageResponse × Cache) :=
  match upstream with
  | Except.ok resp => Except.ok (resp, mapDelete c conversationId)
  | Except.error e => Except.error e

/-- BotpressService.listMessages: a fresh cache hit short-circuits with
the cached list and synthesized meta (pageSize = cached length, no
nextToken); otherwise the upstream result is returned and cached. -/
def listMessages (c : Cache) (conversationId : String) (now : Int)
    (upstream : Except String MessagesResponse) :
    Except String (MessagesResponse × Cache) :=
  match getCachedMessages c conversationId now with
  | (c2, some cachedMessages) =>
    Except.ok (⟨cachedMessages, ⟨some cachedMessages.length, none⟩⟩, c2)
  | (c2, none) =>
    match upstream with
    | Except.error e => Except.error e
    | Except.ok resp => Except.ok (resp, updateCache c2 conversationId resp.messages now)

/-- Helper: lookup misses when no binding carries the key. -/
lemma mapGet_eq_none_of_forall {c : Cache} {key : String}
    (h : ∀ p ∈ c, p.1 ≠ key) : mapGet c key = none := by
  induction c with
  | nil => rfl
  | cons hd tl ih =>
    rw [mapGet, if_neg (h hd (List.mem_cons_self hd tl))]
    exact ih (fun p hp => h p (List.mem_cons_of_mem hd hp))

/-- Helper: deleting a key then filtering leaves no binding of that key. -/
lemma mapGet_clearExpired_mapDelete (c : Cache) (key : String) (now : Int) :
    mapGet (clearExpiredCache (mapDelete c key) now) key = none := by
  apply mapGet_eq_none_of_forall
  intro p hp
  have hp2 : p ∈ mapDelete c key := List.mem_of_mem_filter hp
  have hp3 := List.of_mem_filter hp2
  simpa using hp3

/-- Claim C4: after a successful sendMessage for a conversation, the cache
entry of that conversation is deleted, so a get issued immediately after,
at any instant and with no intervening listMessages, is a cache miss. -/
theorem send_invalidates_cache (c : Cache) (conversationId : String)
    (resp : BotpressMessageResponse) (now : Int) :
    ∃ c2, sendMessage c conversationId (Except.ok resp) = Except.ok (resp, c2)
      ∧ (getCachedMessages c2 conversationId now).2 = none := by
  refine ⟨mapDelete c conversationId, rfl, ?_⟩
  rw [getCachedMessages]
  simp only [mapGet_clearExpired_mapDelete]

/-- Claim C5: a cache get never returns an entry whose age has reached its
ttl: whatever it returns comes from a surviving entry of the lazily evicted
map whose age is strictly below its ttl; moreover every entry written by
updateCache carries ttl = CACHE_TTL = 300000 milliseconds. -/
theorem cache_get_never_stale :
    (∀ (c : Cache) (conversationId : String) (now : Int) (msgs : List BotpressMessage),
      (getCachedMessages c conversationId now).2 = some msgs →
      ∃ e : CacheEntry, mapGet (clearExpiredCache c now) conversationId = some e
        ∧ e.messages = msgs ∧ now - e.lastUpdated < e.ttl)
    ∧ (∀ (c : Cache) (conversationId : String) (msgs : List BotpressMessage) (now : Int),
      mapGet (updateCache c conversationId msgs now) conversationId
        = some ⟨msgs, now, CACHE_TTL⟩)
    ∧ CACHE_TTL = 300000 := by
  refine ⟨?_, ?_, rfl⟩
  · intro c conversationId now msgs h
    cases hg : mapGet (clearExpiredCache c now) conversationId with
    | none =>
      simp only [getCachedMessages, hg] at h
      simp at h
    | some e =>
      by_cases hfresh : now - e.lastUpdated < e.ttl
      · simp only [getCachedMessages, hg, if_pos hfresh] at h
        have hm : e.messages = msgs := by simpa using h
        exact ⟨e, rfl, hm, hfresh⟩
      · simp only [getCachedMessages, hg, if_neg hfresh] at h
        simp at h
  · intro c conversationId msgs now
    rw [updateCache]
    induction c with
    | nil => rw [mapSet, mapGet, if_pos rfl]
    | cons hd tl ih =>
      by_cases hk : hd.1 = conversationId
      · rw [show (hd :: tl : Cache) = (hd.1, hd.2) :: tl from rfl, mapSet, if_pos hk,
          mapGet, if_pos rfl]
      · rw [show (hd :: tl : Cache) = (hd.1, hd.2) :: tl from rfl, mapSet, if_neg hk,
          mapGet, if_neg hk]
        exact ih

/-- Witness for C5 on a one-entry cache read before its ttl elapses. -/
theorem cache_get_never_stale_witness :
    (∃ e : CacheEntry,
        mapGet (clearExpiredCache [("c1", ⟨[msgA], 0, CACHE_TTL⟩)] 100) "c1" = some e
          ∧ e.messages = [msgA] ∧ 100 - e.lastUpdated < e.ttl)
      ∧ mapGet (updateCache [] "c1" [msgA] 7) "c1" = some ⟨[msgA], 7, CACHE_TTL⟩ :=
  ⟨cache_get_never_stale.1 [("c1", ⟨[msgA], 0, CACHE_TTL⟩)] "c1" 100 [msgA] (by decide),
   cache_get_never_stale.2.1 [] "c1" [msgA] 7⟩

/-- Claim C10: when listMessages is served from the cache, the returned
meta is synthesized: pageSize is the number of cached messages and
nextToken is absent, whatever the upstream oracle would have returned. -/
theorem cache_hit_synthesizes_meta (c : Cache) (conversationId : String) (now : Int)
    (msgs : List BotpressMessage)
    (hhit : (getCachedMessages c conversationId now).2 = some msgs) :
    ∀ upstream : Except String MessagesResponse,
      listMessages c conversationId now upstream
        = Except.ok (⟨msgs, ⟨some msgs.length, none⟩⟩,
            (getCachedMessages c conversationId now).1) := by
  intro upstream
  rw [listMessages]
  have hpair : getCachedMessages c conversationId now
      = ((getCachedMessages c conversationId now).1, some msgs) := by
    rw [← hhit]
  rw [hpair]

/-- Witness for C10 on a fresh one-entry cache and an upstream oracle
whose stored meta differs from the synthesized one. -/
theorem cache_hit_synthesizes_meta_witness :
    listMessages [("c1", ⟨[msgA, msgB], 0, CACHE_TTL⟩)] "c1" 100
        (Except.ok ⟨[], ⟨some 42, some "tok"⟩⟩)
      = Except.ok (⟨[msgA, msgB], ⟨some 2, none⟩⟩,
          (getCachedMessages [("c1", ⟨[msgA, msgB], 0, CACHE_TTL⟩)] "c1" 100).1) := by
  have h := cache_hit_synthesizes_meta [("c1", ⟨[msgA, msgB], 0, CACHE_TTL⟩)] "c1" 100
    [msgA, msgB] (by decide) (Except.ok ⟨[], ⟨some 42, some "tok"⟩⟩)
  simpa using h

/-! ### Chat controller (src/controllers/chatController.ts) -/

/-- The message field of a chat request body: absent or otherwise falsy,
present but not a string, or a string (its characters).  All falsy or
non-string values take the same 400 path in the source, so they share the
two non-string constructors. -/
inductive ReqMessage where
  | missing
  | nonString
  | str (s : List Char)
deriving DecidableEq

/-- The whitespace class of the JavaScript string trim: the ASCII
whitespace characters plus NBSP and the BOM (remaining Unicode space
separators are elided, none being relevant to any claim). -/
def jsIsSpace (c : Char) : Bool :=
  c == ' ' || c == '\t' || c == '\n' || c == '\r' ||
  c == '\x0b' || c == '\x0c' || c == '\u00A0' || c == '\uFEFF'

/-- String.prototype.trim on the character list. -/
def jsTrim (s : List Char) : List Char :=
  ((s.dropWhile jsIsSpace).reverse.dropWhile jsIsSpace).reverse

/-- interface ChatResponse assembled by the handler (conversation and user
subobjects flattened into their fields). -/
structure ChatResponseBody where
  message : BotpressMessageResponse
  botResponse : Option BotpressMessage
  conversationId : String
  isStarted : Bool
  messages : List BotpressMessage
  userKey : String
  userId : Option String
deriving DecidableEq

/-- A response body written by the chat handler: an error object with its
stable code, or the assembled chat response. -/
inductive HttpBody where
  | err (error : String) (code : String)
  | chat (b : ChatResponseBody)
deriving DecidableEq

/-- An HTTP response of the chat handler. -/
structure HttpResponse where
  status : Nat
  body : HttpBody
deriving DecidableEq

/-- The upstream operations of botpressService the handler can invoke. -/
inductive UpstreamCall where
  | createUser
  | createConversation
  | sendMessage
  | waitForBotResponse
  | listMessages
deriving DecidableEq

/-- Oracle environment for one request: the result each upstream service
call would produce if issued. -/
structure ChatEnv where
  createUser : Except String (String × BotpressUser)
  createConversation : Except String String
  send : Except String BotpressMessageResponse
  waitResult : Except String (Option BotpressMessage)
  history : Except String MessagesResponse

/-- A chat request: message field, the x-user-key header, and the optional
userId and conversationId body fields. -/
structure ChatRequest where
  message : ReqMessage
  userKey : Option String
  userId : Option String
  conversationId : Option String

/-- The input validation of handleChatMessage: the three checks of the
source in order (falsy or non-string, whitespace-only after trim, longer
than 5000 characters), each returning its 400 response. -/
def validateMessage : ReqMessage → Option HttpResponse
  | ReqMessage.missing =>
    some ⟨400, HttpBody.err "Message is required and must be a string" "INVALID_MESSAGE"⟩
  | ReqMessage.nonString =>
    some ⟨400, HttpBody.err "Message is required and must be a string" "INVALID_MESSAGE"⟩
  | ReqMessage.str s =>
    if s.isEmpty then
      some ⟨400, HttpBody.err "Message is required and must be a string" "INVALID_MESSAGE"⟩
    else if (jsTrim s).length = 0 then
      some ⟨400, HttpBody.err "Message cannot be empty" "EMPTY_MESSAGE"⟩
    else if 5000 < s.length then
      some ⟨400, HttpBody.err "Message is too long (max 5000 characters)" "MESSAGE_TOO_LONG"⟩
    else none

/-- handleChatMessage: validate, ensure user and conversation (calling
upstream only when the caller supplied no key or id; failures there and at
send are fatal), then best-effort wait and history (their failures are
swallowed), assembling the 200 response.  Returns the response and the
ordered trace of upstream calls issued. -/
def handleChatMessage (env : ChatEnv) (req : ChatRequest) :
    HttpResponse × List UpstreamCall :=
  match validateMessage req.message with
  | some resp => (resp, [])
  | none =>
    let userStep : Except HttpResponse (String × Option String) × List UpstreamCall :=
      match req.userKey with
      | some k => (Except.ok (k, req.userId), [])
      | none =>
        match env.createUser with
        | Except.ok ku => (Except.ok (ku.1, some ku.2.id), [UpstreamCall.createUser])
        | Except.error _ =>
          (Except.error ⟨500, HttpBody.err "Failed to create user session"
            "USER_CREATION_FAILED"⟩, [UpstreamCall.createUser])
    match userStep with
    | (Except.error resp, calls) => (resp, calls)
    | (Except.ok ku, calls1) =>
      let convStep : Except HttpResponse String × List UpstreamCall :=
        match req.conversationId with
        | some cid => (Except.ok cid, [])
        | none =>
          match env.createConversation with
          | Except.ok cid => (Except.ok cid, [UpstreamCall.createConversation])
          | Except.error _ =>
            (Except.error ⟨500, HttpBody.err "Failed to create conversation"
              "CONVERSATION_CREATION_FAILED"⟩, [UpstreamCall.createConversation])
      match convStep with
      | (Except.error resp, calls2) => (resp, calls1 ++ calls2)
      | (Except.ok cid, calls2) =>
        match env.send with
        | Except.error _ =>
          (⟨500, HttpBody.err "Failed to send message" "MESSAGE_SEND_FAILED"⟩,
            calls1 ++ calls2 ++ [UpstreamCall.sendMessage])
        | Except.ok sent =>
          let botResponse : Option BotpressMessage :=
            match env.waitResult with
            | Except.ok r => r
            | Except.error _ => none
          let messages : List BotpressMessage :=
            match env.history with
            | Except.ok mr => mr.messages
            | Except.error _ => []
          (⟨200, HttpBody.chat ⟨sent, botResponse, cid, true, messages, ku.1, ku.2⟩⟩,
            calls1 ++ calls2 ++ [UpstreamCall.sendMessage, UpstreamCall.waitForBotResponse,
              UpstreamCall.listMessages])

/-- The class of invalid message fields of claim C6: missing, not a
string, empty, whitespace-only, or longer than 5000 characters after
trimming. -/
def invalidChatMessage (m : ReqMessage) : Prop :=
  m = ReqMessage.missing ∨ m = ReqMessage.nonString ∨
  ∃ s, m = ReqMessage.str s ∧ (s = [] ∨ jsTrim s = [] ∨ 5000 < (jsTrim s).length)

/-- Helper: trimming never lengthens a string. -/
lemma jsTrim_length_le (s : List Char) : (jsTrim s).length ≤ s.length := by
  rw [jsTrim]
  calc ((s.dropWhile jsIsSpace).reverse.dropWhile jsIsSpace).reverse.length
      = ((s.dropWhile jsIsSpace).reverse.dropWhile jsIsSpace).length :=
        List.length_reverse _
    _ ≤ (s.dropWhile jsIsSpace).reverse.length := (List.dropWhile_sublist _).length_le
    _ = (s.dropWhile jsIsSpace).length := List.length_reverse _
    _ ≤ s.length := (List.dropWhile_sublist _).length_le

/-- Helper: every invalid message makes validateMessage return some 400
error response. -/
lemma validateMessage_of_invalid {m : ReqMessage} (h : invalidChatMessage m) :
    ∃ msg code, validateMessage m = some ⟨400, HttpBody.err msg code⟩ := by
  rcases h with h | h | ⟨s, hs, hcase⟩
  · rw [h]; exact ⟨_, _, rfl⟩
  · rw [h]; exact ⟨_, _, rfl⟩
  · rw [hs]
    simp only [validateMessage]
    by_cases h1 : s.isEmpty
    · rw [if_pos h1]; exact ⟨_, _, rfl⟩
    · rw [if_neg h1]
      by_cases h2 : (jsTrim s).length = 0
      · rw [if_pos h2]; exact ⟨_, _, rfl⟩
      · rw [if_neg h2]
        have h3 : 5000 < s.length := by
          rcases hcase with he | ht | hl
          · exact absurd (by rw [he]; rfl) h1
          · exact absurd (by rw [ht]; rfl) h2
          · exact lt_of_lt_of_le hl (jsTrim_length_le s)
        rw [if_pos h3]
        exact ⟨_, _, rfl⟩

/-- Claim C6: a chat request whose message is missing, not a string,
empty, whitespace-only, or longer than 5000 characters after trimming is
answered with a 400 validation error and zero upstream calls. -/
theorem invalid_message_rejected_without_upstream (env : ChatEnv) (req : ChatRequest)
    (h : invalidChatMessage req.message) :
    (handleChatMessage env req).1.status = 400 ∧ (handleChatMessage env req).2 = [] := by
  obtain ⟨msg, code, hv⟩ := validateMessage_of_invalid h
  constructor <;> simp only [handleChatMessage, hv]

/-- A concrete oracle environment in which every upstream call would fail,
so any upstream call would be observable in the response. -/
def envDown : ChatEnv :=
  ⟨Except.error "down", Except.error "down", Except.error "down",
   Except.error "down", Except.error "down"⟩

/-- Witness for C6 on a whitespace-only message. -/
theorem invalid_message_rejected_without_upstream_witness :
    (handleChatMessage envDown ⟨ReqMessage.str [' ', ' '], none, none, none⟩).1.status = 400
      ∧ (handleChatMessage envDown ⟨ReqMessage.str [' ', ' '], none, none, none⟩).2 = [] :=
  invalid_message_rejected_without_upstream envDown
    ⟨ReqMessage.str [' ', ' '], none, none, none⟩
    (Or.inr (Or.inr ⟨[' ', ' '], rfl, Or.inr (Or.inl (by decide))⟩))

/-- Claim C7: when the send succeeds and the subsequent history
listMessages call fails, the handler still answers 200, with an empty
messages list and the sent message in the message field. -/
theorem history_failure_degrades_to_200 (env : ChatEnv) (req : ChatRequest)
    (key cid : String) (sent : BotpressMessageResponse) (e : String)
    (hvalid : validateMessage req.message = none)
    (hkey : req.userKey = some key)
    (hcid : req.conversationId = some cid)
    (hsend : env.send = Except.ok sent)
    (hhist : env.history = Except.error e) :
    (handleChatMessage env req).1.status = 200
      ∧ ∃ b : ChatResponseBody, (handleChatMessage env req).1.body = HttpBody.chat b
          ∧ b.messages = [] ∧ b.message = sent := by
  simp only [handleChatMessage, hvalid, hkey, hcid, hsend, hhist]
  exact ⟨by trivial, _, rfl, rfl, rfl⟩

/-- Witness for C7: supplied session key and conversation id, successful
send, failing history call. -/
theorem history_failure_degrades_to_200_witness :
    (handleChatMessage
        ⟨Except.error "x", Except.error "x", Except.ok ⟨msgA⟩, Except.ok (some msgB),
          Except.error "down"⟩
        ⟨ReqMessage.str ['h', 'i'], some "k1", none, some "c1"⟩).1.status = 200
      ∧ ∃ b : ChatResponseBody,
          (handleChatMessage
              ⟨Except.error "x", Except.error "x", Except.ok ⟨msgA⟩, Except.ok (some msgB),
                Except.error "down"⟩
              ⟨ReqMessage.str ['h', 'i'], some "k1", none, some "c1"⟩).1.body = HttpBody.chat b
            ∧ b.messages = [] ∧ b.message = ⟨msgA⟩ :=
  history_failure_degrades_to_200
    ⟨Except.error "x", Except.error "x", Except.ok ⟨msgA⟩, Except.ok (some msgB),
      Except.error "down"⟩
    ⟨ReqMessage.str ['h', 'i'], some "k1", none, some "c1"⟩
    "k1" "c1" ⟨msgA⟩ "down" (by decide) rfl rfl rfl rfl

/-! ### Contact controller (src/controllers/contactController.ts) -/

/-- A contact form submission; none models an absent field. -/
structure ContactRequest where
  name : Option (List Char)
  email : Option (List Char)
  message : Option (List Char)

/-- The two ContactService operations the controller can invoke on the
relay API. -/
inductive RelayCall where
  | validateConnection
  | sendMessage
deriving DecidableEq

/-- Oracle environment for the contact controller: the result of a
validateConnection call (false also models its caught failure) and of a
relay send. -/
structure ContactEnv where
  validateConnection : Bool
  send : Except String Unit

/-- A JSON response of the contact controller. -/
structure ContactResponse where
  status : Nat
  success : Bool
  error : Option String
  info : Option String
deriving DecidableEq

/-- JavaScript truthiness of a request string field: present and
nonempty. -/
def truthyField : Option (List Char) → Bool
  | none => false
  | some s => !s.isEmpty

/-- The email regex of the controller, written as its decomposition: the
string splits at a unique non-initial at-sign into a nonempty local part
and a domain carrying a dot that is neither its first nor its last
character, with no whitespace anywhere (each character class in the regex
excludes whitespace and at-signs, and the split on the at-sign already
rules out further at-signs). -/
def emailRegexTest (s : List Char) : Bool :=
  match s.splitOn '@' with
  | [localPart, domain] =>
    !localPart.isEmpty && localPart.all (fun c => !jsIsSpace c)
      && domain.all (fun c => !jsIsSpace c)
      && (domain.drop 1).dropLast.contains '.'
  | _ => false

/-- ContactController.sendMessage: missing-field check, email format
check, then validateConnection (503 when false) and the relay send (500 on
a thrown error, 200 on success), with the ordered trace of relay calls. -/
def contactSendMessage (env : ContactEnv) (req : ContactRequest) :
    ContactResponse × List RelayCall :=
  if truthyField req.name && truthyField req.email && truthyField req.message then
    if emailRegexTest (req.email.getD []) then
      if env.validateConnection then
        match env.send with
        | Except.ok _ =>
          (⟨200, true, none, some "Message sent successfully"⟩,
            [RelayCall.validateConnection, RelayCall.sendMessage])
        | Except.error _ =>
          (⟨500, false, some "Failed to send message", none⟩,
            [RelayCall.validateConnection, RelayCall.sendMessage])
      else (⟨503, false, some "Service unavailable", none⟩, [RelayCall.validateConnection])
    else (⟨400, false, some "Invalid email format", none⟩, [])
  else (⟨400, false, some "Missing required fields", none⟩, [])

/-- Claim C8: a contact submission whose email does not match the email
regex is answered 400 with the email-specific error and no relay call at
all. -/
theorem invalid_email_rejected_without_relay (env : ContactEnv) (req : ContactRequest)
    (e : List Char)
    (hname : truthyField req.name = true)
    (hmail : req.email = some e)
    (hmailt : truthyField req.email = true)
    (hmsg : truthyField req.message = true)
    (hbad : emailRegexTest e = false) :
    contactSendMessage env req = (⟨400, false, some "Invalid email format", none⟩, []) := by
  rw [contactSendMessage, if_pos (by rw [hname, hmailt, hmsg]; rfl),
    if_neg (by rw [hmail]; simp [hbad])]

/-- Witness for C8 on the submission of the end-to-end scenario: a valid
name and message with email not-an-email, against a healthy relay. -/
theorem invalid_email_rejected_without_relay_witness :
    contactSendMessage ⟨true, Except.ok ()⟩
        ⟨some ['A', 'd', 'a'], some ['n', 'o', 't', '-', 'a', 'n', '-', 'e', 'm', 'a', 'i', 'l'],
          some ['h', 'e', 'l', 'l', 'o']⟩
      = (⟨400, false, some "Invalid email format", none⟩, []) :=
  invalid_email_rejected_without_relay ⟨true, Except.ok ()⟩
    ⟨some ['A', 'd', 'a'], some ['n', 'o', 't', '-', 'a', 'n', '-', 'e', 'm', 'a', 'i', 'l'],
      some ['h', 'e', 'l', 'l', 'o']⟩
    ['n', 'o', 't', '-', 'a', 'n', '-', 'e', 'm', 'a', 'i', 'l']
    rfl rfl rfl rfl (by decide)

end PortfolioChatbot
